import Mathlib

set_option maxRecDepth 4000

/-!
Verification of the authentication and session-lifecycle core of the
k3rlll/threads repository against its specification.  The Go source is
shallowly embedded: machine state (the users and sessions tables) is passed
explicitly, fallible operations return Except values, the wall clock and the
random UUID generator are explicit arguments, and the two cryptographic
primitives (bcrypt, HMAC signing) are modelled symbolically.
-/

namespace Threads

/-- Model of Go time.Time: an instant as an integer (time.Time.Before is the
strict order, time.Time.Add is addition). -/
abbrev GoTime := Int

/-- Model of github.com/google/uuid UUID: the sixteen bytes of the value. -/
abbrev UUID := List Nat

/-- Model of uuid.Nil, the zero UUID. -/
def uuidNil : UUID := List.replicate 16 0

/-- Hex-digit value of a character, as in the xvalues table of
github.com/google/uuid: none for a non-hex character. -/
def xvalue (c : Char) : Option Nat :=
  if 48 ≤ c.toNat ∧ c.toNat ≤ 57 then some (c.toNat - 48)
  else if 97 ≤ c.toNat ∧ c.toNat ≤ 102 then some (c.toNat - 97 + 10)
  else if 65 ≤ c.toNat ∧ c.toNat ≤ 70 then some (c.toNat - 65 + 10)
  else none

/-- Model of uuid.xtob: decode two hex characters into one byte. -/
def xtob (c1 c2 : Char) : Option Nat :=
  match xvalue c1, xvalue c2 with
  | some v1, some v2 => some (v1 * 16 + v2)
  | _, _ => none

/-- Decode the byte written at character positions i and i+1 of s. -/
def hexByteAt (s : List Char) (i : Nat) : Option Nat :=
  match s.get? i, s.get? (i + 1) with
  | some c1, some c2 => xtob c1 c2
  | _, _ => none

/-- Positions of the sixteen hex-encoded bytes in the canonical 36-character
form, as listed in uuid.Parse. -/
def canonicalHexPositions : List Nat :=
  [0, 2, 4, 6, 9, 11, 14, 16, 19, 21, 24, 26, 28, 30, 32, 34]

/-- Canonical-body decoding step of uuid.Parse: the four hyphens must sit at
positions 8, 13, 18 and 23, and the sixteen bytes are read from the fixed
positions around them. -/
def parseCanonical (s : List Char) : Option UUID :=
  if s.get? 8 = some '-' ∧ s.get? 13 = some '-' ∧ s.get? 18 = some '-' ∧ s.get? 23 = some '-' then
    canonicalHexPositions.mapM (hexByteAt s)
  else none

/-- Model of uuid.Parse: dispatches on the length, accepting the canonical
36-character form, the urn:uuid: form, the 38-character form in braces (the
library strips only the opening brace and never checks the closing one, kept
faithfully here), and the 32-character plain hex form.  Characters stand for
the bytes Go indexes; the two views agree on ASCII input and every string the
Go function accepts is pure ASCII. -/
def uuidParse (s : List Char) : Option UUID :=
  if s.length = 36 then parseCanonical s
  else if s.length = 36 + 9 then
    if (s.take 9).map Char.toLower = "urn:uuid:".toList then parseCanonical (s.drop 9)
    else none
  else if s.length = 36 + 2 then parseCanonical (s.drop 1)
  else if s.length = 32 then (List.range 16).mapM (fun i => hexByteAt s (i * 2))
  else none

/-- Lowercase hex digit for a value below sixteen. -/
def hexDigit (n : Nat) : Char :=
  if n < 10 then Char.ofNat (48 + n) else Char.ofNat (97 + n - 10)

/-- Two lowercase hex characters of one byte. -/
def byteHex (b : Nat) : List Char := [hexDigit (b / 16), hexDigit (b % 16)]

/-- Model of uuid.UUID.String: the canonical lowercase hyphenated form. -/
def uuidString (u : UUID) : String :=
  String.mk ((u.take 4).flatMap byteHex ++ '-' :: ((u.drop 4).take 2).flatMap byteHex
    ++ '-' :: ((u.drop 6).take 2).flatMap byteHex ++ '-' :: ((u.drop 8).take 2).flatMap byteHex
    ++ '-' :: (u.drop 10).flatMap byteHex)

/-- Go error values this development distinguishes between. -/
inductive Err where
  | msg : String → Err
  | noRows : Err
  | tokenMalformed : Err
  | tokenExpired : Err
  | signatureInvalid : Err
  | keyInvalidType : Err
  | noTagsAffected : Err
  | uniqueViolation : Err
  deriving DecidableEq, Repr

/-- Signing algorithms a token header can carry.  HS256 is what the code
issues; RS256 stands for any non-HMAC method. -/
inductive SigAlg where
  | HS256
  | HS384
  | HS512
  | RS256
  deriving DecidableEq, Repr

/-- Whether the method is in the HMAC family, as tested by the type switch in
the keyfunc of VerifyAccessToken. -/
def SigAlg.isHMAC : SigAlg → Bool
  | .HS256 | .HS384 | .HS512 => true
  | .RS256 => false

/-- A value of Go type any as returned by a jwt.Keyfunc: a secret either as a
byte slice or as a string.  The HMAC Verify of golang-jwt accepts only the
byte form and fails with ErrInvalidKeyType otherwise. -/
inductive KeyVal where
  | bytes : String → KeyVal
  | str : String → KeyVal
  deriving DecidableEq, Repr

/-- The claim fields relevant to this code (jwt.MapClaims): the issuing side
sets user_id, exp and iat; the verifying side reads sub. -/
structure JwtClaims where
  userId : Option String := none
  sub : Option String := none
  exp : Option Int := none
  iat : Option Int := none
  deriving DecidableEq, Repr

/-- Symbolic signed JWT: the header algorithm, the claims, and the byte key
the signature was produced with.  HMAC is collision-free in this model: a
signature validates exactly under the key that produced it. -/
structure JwtToken where
  alg : SigAlg
  claims : JwtClaims
  sigKey : String
  deriving DecidableEq, Repr

/-- State of the JWTManager of pkg/jwt/manager.go: the configured secret and
the access-token TTL. -/
structure JWTManagerCfg where
  secretKey : String
  tokenTTL : Int

/-- Embeds JWTManager.NewAcccessToken (pkg/jwt/manager.go): builds MapClaims
with user_id, exp = now + TTL and iat = now, and signs them with HS256 under
the byte form of the secret.  No sub claim is ever set. -/
def NewAcccessToken (m : JWTManagerCfg) (userID : String) (now : Int) : JwtToken :=
  { alg := .HS256
    claims := { userId := some userID, exp := some (now + m.tokenTTL), iat := some now }
    sigKey := m.secretKey }

/-- The keyfunc VerifyAccessToken hands to jwt.Parse: demands an HMAC method
(returning ErrTokenMalformed otherwise) and then yields manager.secretKey,
which is a string value, not a byte slice. -/
def verifyKeyfunc (m : JWTManagerCfg) (t : JwtToken) : Except Err KeyVal :=
  if t.alg.isHMAC then .ok (.str m.secretKey) else .error .tokenMalformed

/-- Model of golang-jwt v5 jwt.Parse against the keyfunc above: obtain the
key, verify the signature with it (HMAC verification demands a byte key and
then compares it with the signing key), and validate the exp claim against
the current time. -/
def jwtParse (m : JWTManagerCfg) (now : Int) (t : JwtToken) : Except Err JwtToken :=
  match verifyKeyfunc m t with
  | .error e => .error e
  | .ok key =>
    match key with
    | .str _ => .error .keyInvalidType
    | .bytes k =>
      if k = t.sigKey then
        match t.claims.exp with
        | some e => if e < now then .error .tokenExpired else .ok t
        | none => .ok t
      else .error .signatureInvalid

/-- Embeds JWTManager.VerifyAccessToken (pkg/jwt/manager.go): jwt.Parse with
the string-key keyfunc, then GetSubject; an absent sub claim yields the empty
string, and an empty subject is reported as ErrTokenMalformed. -/
def VerifyAccessToken (m : JWTManagerCfg) (now : Int) (t : JwtToken) : Except Err String :=
  match jwtParse m now t with
  | .error e => .error e
  | .ok tok =>
    match tok.claims.sub with
    | none => .error .tokenMalformed
    | some s => if s = "" then .error .tokenMalformed else .ok s

/-- Row of the users table (domain/entity User). -/
structure UserRow where
  id : UUID
  email : String
  username : String
  passwordHash : String
  isBlocked : Bool
  deriving DecidableEq, Repr

/-- Row of the sessions table (domain/entity Session). -/
structure SessionRow where
  id : UUID
  userId : UUID
  refreshToken : UUID
  createdAt : GoTime
  expiresAt : GoTime
  userAgent : String
  clientIP : String
  deriving DecidableEq, Repr

/-- Database state the auth repository acts on. -/
structure DB where
  users : List UserRow
  sessions : List SessionRow
  deriving DecidableEq, Repr

/-- Embeds AuthRepo.GetUserByLogin: select id and password_hash from the
first user whose username or email equals the login; Scan with no result row
yields pgx.ErrNoRows. -/
def AuthRepo.GetUserByLogin (db : DB) (login : String) : Except Err (UUID × String) :=
  match db.users.find? (fun u => u.username == login || u.email == login) with
  | some u => .ok (u.id, u.passwordHash)
  | none => .error .noRows

/-- Embeds AuthRepo.StoreSession: insert a sessions row built from the
session fields, with user_id taken from the separate userID argument. -/
def AuthRepo.StoreSession (db : DB) (userID : UUID) (s : SessionRow) : DB :=
  { db with sessions := db.sessions ++
      [{ id := s.id, userId := userID, refreshToken := s.refreshToken,
         createdAt := s.createdAt, expiresAt := s.expiresAt,
         userAgent := s.userAgent, clientIP := s.clientIP }] }

/-- Embeds AuthRepo.DeleteSession: delete the rows matching both the session
id and the user id; affecting zero rows is not an error. -/
def AuthRepo.DeleteSession (db : DB) (userID sessionID : UUID) : DB :=
  { db with sessions := db.sessions.filter (fun r => !(r.id == sessionID && r.userId == userID)) }

/-- Embeds AuthRepo.DeleteAllSessions: delete every row owned by the user. -/
def AuthRepo.DeleteAllSessions (db : DB) (userID : UUID) : DB :=
  { db with sessions := db.sessions.filter (fun r => !(r.userId == userID)) }

/-- Embeds AuthRepo.RefreshSession: update created_at, expires_at and
refresh_token in place on the rows matching the session id and user id. -/
def AuthRepo.RefreshSession (db : DB) (s : SessionRow) : DB :=
  { db with sessions := db.sessions.map (fun r =>
      if r.id == s.id && r.userId == s.userId then
        { r with createdAt := s.createdAt, expiresAt := s.expiresAt, refreshToken := s.refreshToken }
      else r) }

/-- Embeds AuthRepo.GetSessionByRefreshToken: select by exact refresh-token
match; the select list omits the refresh_token column, so the scanned struct
keeps the zero UUID in that field. -/
def AuthRepo.GetSessionByRefreshToken (db : DB) (rt : UUID) : Except Err SessionRow :=
  match db.sessions.find? (fun r => r.refreshToken == rt) with
  | some r => .ok { r with refreshToken := uuidNil }
  | none => .error .noRows

/-- Embeds AuthRepo.UserIsBlocked: read is_blocked for the user and return
its negation, exactly as the code's final return statement does. -/
def AuthRepo.UserIsBlocked (db : DB) (userID : UUID) : Except Err Bool :=
  match db.users.find? (fun u => u.id == userID) with
  | some u => .ok (!u.isBlocked)
  | none => .error .noRows

/-- Embeds AuthRepo.CreateUser: insert a users row; a duplicate id, email or
username makes the insert fail (unique columns), otherwise the new row is
appended and the same id returned. -/
def AuthRepo.CreateUser (db : DB) (userID : UUID) (email username passwordHash : String) :
    Except Err UUID × DB :=
  if db.users.any (fun u => u.id == userID || u.email == email || u.username == username) then
    (.error .uniqueViolation, db)
  else
    (.ok userID,
     { db with users := db.users ++
         [{ id := userID, email := email, username := username,
            passwordHash := passwordHash, isBlocked := false }] })

/-- Embeds unicode.IsUpper on the ASCII range (the letters A to Z). -/
def goIsUpper (c : Char) : Bool := 65 ≤ c.toNat && c.toNat ≤ 90

/-- Embeds unicode.IsLower on the ASCII range (the letters a to z). -/
def goIsLower (c : Char) : Bool := 97 ≤ c.toNat && c.toNat ≤ 122

/-- Embeds unicode.IsNumber on the ASCII range (the decimal digits). -/
def goIsNumber (c : Char) : Bool := 48 ≤ c.toNat && c.toNat ≤ 57

/-- Embeds unicode.IsPunct or unicode.IsSymbol on the ASCII range: the
printable characters that are neither letters, digits nor the space. -/
def goIsSpecial (c : Char) : Bool :=
  (33 ≤ c.toNat && c.toNat ≤ 47) || (58 ≤ c.toNat && c.toNat ≤ 64) ||
  (91 ≤ c.toNat && c.toNat ≤ 96) || (123 ≤ c.toNat && c.toNat ≤ 126)

/-- Flags collected by the character loop of validatePassword. -/
structure PwFlags where
  hasUpper : Bool := false
  hasLower : Bool := false
  hasNumber : Bool := false
  hasSpecial : Bool := false
  deriving DecidableEq, Repr

/-- The range loop of validatePassword: for each character the switch takes
the first matching case and sets the corresponding flag. -/
def scanPassword : List Char → PwFlags → PwFlags
  | [], f => f
  | c :: rest, f =>
    scanPassword rest
      (if goIsUpper c then { f with hasUpper := true }
       else if goIsLower c then { f with hasLower := true }
       else if goIsNumber c then { f with hasNumber := true }
       else if goIsSpecial c then { f with hasSpecial := true }
       else f)

/-- Embeds validatePassword (internal usecase, five-rule version): minimum
length eight, then one uppercase, one lowercase, one number and one special
character, each missing rule reported in that order.  Go measures len in
bytes and ranges over runes; on ASCII input both equal the character count
used here. -/
def validatePassword (password : String) : Except Err Unit :=
  let hasMinLen : Bool := password.toList.length ≥ 8
  let f := scanPassword password.toList {}
  if !hasMinLen then .error (.msg "password must be at least 8 characters long")
  else if !f.hasUpper then .error (.msg "password must contain at least one uppercase letter")
  else if !f.hasLower then .error (.msg "password must contain at least one lowercase letter")
  else if !f.hasNumber then .error (.msg "password must contain at least one number")
  else if !f.hasSpecial then .error (.msg "password must contain at least one special character")
  else .ok ()

/-- Embeds containsAtSymbol: at least one at-sign character. -/
def containsAtSymbol (s : String) : Bool := s.toList.any (fun c => c == '@')

/-- Embeds validateEmail: length between 5 and 50 and an at-sign present. -/
def validateEmail (email : String) : Bool :=
  if email.toList.length < 5 || email.toList.length > 50 then false
  else if !containsAtSymbol email then false
  else true

/-- Embeds validateUsername: length between 3 and 30. -/
def validateUsername (username : String) : Bool :=
  if username.toList.length < 3 || username.toList.length > 30 then false
  else true

/-- The duration 15 * 24 * time.Hour in nanoseconds, the session validity
window added to the current time at login and at rotation. -/
def sessionTTL : Int := 15 * 24 * 60 * 60 * 1000000000

/-- The JWTManager interface as consumed by the usecase: the token signer is
an external collaborator here, so it enters the model as a pair of function
fields; access tokens are plain strings at this boundary. -/
structure JWTMgrIface where
  newAccessToken : UUID → Except Err String
  verifyAccessToken : String → Except Err UUID

/-- Embeds AuthUsecase.RegisterUser: validate username, email and password in
order, hash the password (bcrypt enters as the hash argument), and create the
user under a fresh id (uuid.NewUUID enters as newID). -/
def AuthUsecase.RegisterUser (hash : String → String) (db : DB)
    (username email password : String) (newID : UUID) : Except Err UUID × DB :=
  if !validateUsername username then
    (.error (.msg "username must be between 3 and 30 characters"), db)
  else if !validateEmail email then
    (.error (.msg "invalid email format"), db)
  else
    match validatePassword password with
    | .error e => (.error e, db)
    | .ok _ => AuthRepo.CreateUser db newID email username (hash password)

/-- Embeds AuthUsecase.LoginUser: look the user up by login, verify the
password against the stored hash (bcrypt enters as the verify argument),
issue an access token, build a session with createdAt = now and
expiresAt = now + 15 days (the two time.Now calls collapse to the one instant
now; uuid.New and uuid.NewUUID enter as sessionID and refreshToken), store
it, and return the id, the access token and the refresh-token string. -/
def AuthUsecase.LoginUser (mgr : JWTMgrIface) (verify : String → String → Bool) (db : DB)
    (login password userAgent ip : String) (now : GoTime) (sessionID refreshToken : UUID) :
    Except Err (UUID × String × String) × DB :=
  match AuthRepo.GetUserByLogin db login with
  | .error e => (.error e, db)
  | .ok (userID, passwordHash) =>
    if !verify password passwordHash then (.error (.msg "invalid credentials"), db)
    else
      match mgr.newAccessToken userID with
      | .error e => (.error e, db)
      | .ok accessToken =>
        let session : SessionRow :=
          { id := sessionID, userId := userID, refreshToken := refreshToken,
            createdAt := now, expiresAt := now + sessionTTL,
            userAgent := userAgent, clientIP := ip }
        (.ok (userID, accessToken, uuidString refreshToken),
         AuthRepo.StoreSession db userID session)

/-- Embeds AuthUsecase.RefreshSessionToken: parse the supplied string as a
UUID, look the session up by it, reject it as expired when its expiresAt lies
before its createdAt (deleting it as a side effect), otherwise rotate the
session to the window starting now under the fresh refresh token newRT
(uuid.NewUUID enters as newRT), persist the update, and issue a new access
token for the owning user. -/
def AuthUsecase.RefreshSessionToken (mgr : JWTMgrIface) (db : DB)
    (refreshToken : String) (now : GoTime) (newRT : UUID) :
    Except Err (String × String) × DB :=
  match uuidParse refreshToken.toList with
  | none => (.error (.msg "invalid session ID"), db)
  | some sid =>
    match AuthRepo.GetSessionByRefreshToken db sid with
    | .error e => (.error e, db)
    | .ok session =>
      let uid := session.userId
      if session.expiresAt < session.createdAt then
        (.error (.msg "session has expired"), AuthRepo.DeleteSession db uid session.id)
      else
        let session2 : SessionRow :=
          { session with expiresAt := now + sessionTTL, createdAt := now, refreshToken := newRT }
        let db2 := AuthRepo.RefreshSession db session2
        match mgr.newAccessToken uid with
        | .error e => (.error e, db2)
        | .ok newAccessToken => (.ok (newAccessToken, uuidString newRT), db2)

/-- Embeds AuthUsecase.LogoutSession: parse both ids and delete the matching
session; deleting nothing still succeeds. -/
def AuthUsecase.LogoutSession (db : DB) (userID sessionID : String) : Except Err Unit × DB :=
  match uuidParse userID.toList with
  | none => (.error (.msg "invalid user ID"), db)
  | some uid =>
    match uuidParse sessionID.toList with
    | none => (.error (.msg "invalid session ID"), db)
    | some sid => (.ok (), AuthRepo.DeleteSession db uid sid)

/-- Embeds AuthUsecase.LogoutAllSessions: parse the user id and delete every
session it owns. -/
def AuthUsecase.LogoutAllSessions (db : DB) (userID : String) : Except Err Unit × DB :=
  match uuidParse userID.toList with
  | none => (.error (.msg "invalid user ID"), db)
  | some uid => (.ok (), AuthRepo.DeleteAllSessions db uid)

/-- Embeds AuthUsecase.VerifyUser: verify the access token, ask the
repository whether the resolved user is blocked, and reject when that answer
is true. -/
def AuthUsecase.VerifyUser (mgr : JWTMgrIface) (db : DB) (token : String) : Except Err UUID :=
  match mgr.verifyAccessToken token with
  | .error e => .error e
  | .ok userID =>
    match AuthRepo.UserIsBlocked db userID with
    | .error e => .error e
    | .ok isBlocked =>
      if isBlocked then .error (.msg "user is blocked") else .ok userID

/-- Concrete refresh token used by the closed theorems: sixteen 0x11 bytes. -/
def rtA : UUID := List.replicate 16 17

/-- Concrete fresh refresh token: sixteen 0x22 bytes. -/
def rtB : UUID := List.replicate 16 34

/-- Another concrete fresh refresh token: sixteen 0x33 bytes. -/
def rtB2 : UUID := List.replicate 16 51

/-- Concrete session id: sixteen 0xaa bytes. -/
def idA : UUID := List.replicate 16 170

/-- Concrete user id: sixteen 0x01 bytes. -/
def uidA : UUID := List.replicate 16 1

/-- Concrete user id: sixteen 0x02 bytes. -/
def uidB : UUID := List.replicate 16 2

/-- Token-signer stand-in for the closed theorems: issuance always succeeds,
and verification resolves the two fixed tokens to the two fixed users. -/
def mgrFix : JWTMgrIface :=
  { newAccessToken := fun _ => .ok "tok"
    verifyAccessToken := fun t =>
      if t = "tokA" then .ok uidA else if t = "tokB" then .ok uidB else .error .tokenMalformed }

/-- A session whose expiresAt lies in the past of the instants the closed
theorems refresh at, yet after its createdAt. -/
def sessA : SessionRow :=
  { id := idA, userId := uidA, refreshToken := rtA, createdAt := 0, expiresAt := 100,
    userAgent := "ua", clientIP := "ip" }

/-- Database holding only sessA. -/
def dbExpired : DB := { users := [], sessions := [sessA] }

/-- A session whose expiresAt has not passed at instant 200 but lies before
its createdAt. -/
def sessW : SessionRow :=
  { id := idA, userId := uidA, refreshToken := rtA, createdAt := 300, expiresAt := 250,
    userAgent := "ua", clientIP := "ip" }

/-- Database holding only sessW. -/
def dbWeird : DB := { users := [], sessions := [sessW] }

/-- An unblocked user. -/
def aliceRow : UserRow :=
  { id := uidA, email := "alice@example.com", username := "alice",
    passwordHash := "hash:secret", isBlocked := false }

/-- A blocked user. -/
def bobRow : UserRow :=
  { id := uidB, email := "bob@example.com", username := "bob",
    passwordHash := "hash:pw", isBlocked := true }

/-- Database holding alice and bob and no sessions. -/
def dbUsers : DB := { users := [aliceRow, bobRow], sessions := [] }

/-- The empty database. -/
def dbEmpty : DB := { users := [], sessions := [] }

/-- Bcrypt stand-in for the closed theorems: a hash verifies exactly for the
password it tags. -/
def verifyFix (password passwordHash : String) : Bool := passwordHash == "hash:" ++ password

/-- The session row a successful login of alice at instant 0 stores. -/
def sessL : SessionRow :=
  { id := idA, userId := uidA, refreshToken := rtB, createdAt := 0, expiresAt := 0 + sessionTTL,
    userAgent := "ua", clientIP := "ip" }

/-- The four character classes of the password switch are pairwise disjoint,
so its first-match semantics still records the presence of every class. -/
theorem pw_classes_disjoint (c : Char) :
    (goIsUpper c = true → goIsLower c = false ∧ goIsNumber c = false ∧ goIsSpecial c = false) ∧
    (goIsLower c = true → goIsNumber c = false ∧ goIsSpecial c = false) ∧
    (goIsNumber c = true → goIsSpecial c = false) := by
  simp only [goIsUpper, goIsLower, goIsNumber, goIsSpecial, Bool.and_eq_true, Bool.and_eq_false_iff,
    Bool.or_eq_false_iff, decide_eq_true_eq, decide_eq_false_iff_not, not_le]
  omega

/-- The character loop collects exactly the presence of each class. -/
theorem scanPassword_flags (l : List Char) : ∀ f : PwFlags,
    (scanPassword l f).hasUpper = (f.hasUpper || l.any goIsUpper) ∧
    (scanPassword l f).hasLower = (f.hasLower || l.any goIsLower) ∧
    (scanPassword l f).hasNumber = (f.hasNumber || l.any goIsNumber) ∧
    (scanPassword l f).hasSpecial = (f.hasSpecial || l.any goIsSpecial) := by
  induction l with
  | nil => intro f; simp [scanPassword]
  | cons c rest ih =>
    intro f
    obtain ⟨d1, d2, d3⟩ := pw_classes_disjoint c
    by_cases h1 : goIsUpper c = true
    · obtain ⟨e1, e2, e3⟩ := d1 h1
      simp [scanPassword, ih, h1, e1, e2, e3, Bool.or_assoc]
    · by_cases h2 : goIsLower c = true
      · obtain ⟨e2, e3⟩ := d2 h2
        simp [scanPassword, ih, h1, h2, e2, e3, Bool.or_assoc]
      · by_cases h3 : goIsNumber c = true
        · have e3 := d3 h3
          simp [scanPassword, ih, h1, h2, h3, e3, Bool.or_assoc]
        · by_cases h4 : goIsSpecial c = true <;>
            simp [scanPassword, ih, h1, h2, h3, h4, Bool.or_assoc]

/-- validatePassword succeeds exactly on the passwords that satisfy all five
strength rules. -/
theorem validatePassword_ok_iff (password : String) :
    validatePassword password = .ok () ↔
      (8 ≤ password.toList.length ∧ password.toList.any goIsUpper = true ∧
       password.toList.any goIsLower = true ∧ password.toList.any goIsNumber = true ∧
       password.toList.any goIsSpecial = true) := by
  obtain ⟨u, lo, n, sp⟩ := scanPassword_flags password.toList {}
  simp only [validatePassword, u, lo, n, sp]
  by_cases hl : 8 ≤ password.toList.length <;>
    cases hu : password.toList.any goIsUpper <;>
    cases hlo : password.toList.any goIsLower <;>
    cases hn : password.toList.any goIsNumber <;>
    cases hsp : password.toList.any goIsSpecial <;>
    simp_all [ge_iff_le]

/-- Every outcome of validatePassword is success or one of its five fixed
validation messages. -/
theorem validatePassword_error_shape (password : String) :
    validatePassword password = .ok () ∨
    validatePassword password = .error (.msg "password must be at least 8 characters long") ∨
    validatePassword password = .error (.msg "password must contain at least one uppercase letter") ∨
    validatePassword password = .error (.msg "password must contain at least one lowercase letter") ∨
    validatePassword password = .error (.msg "password must contain at least one number") ∨
    validatePassword password = .error (.msg "password must contain at least one special character") := by
  simp only [validatePassword]
  by_cases hl : (8 : Nat) ≤ password.toList.length <;>
    cases hu : (scanPassword password.toList {}).hasUpper <;>
    cases hlo : (scanPassword password.toList {}).hasLower <;>
    cases hn : (scanPassword password.toList {}).hasNumber <;>
    cases hsp : (scanPassword password.toList {}).hasSpecial <;>
    simp_all [ge_iff_le]

/-- C1: access-token round trip.  The claim fails on the code: the keyfunc
hands jwt.Parse the secret as a string while golang-jwt HMAC verification
demands a byte slice, so every verification of a freshly issued token ends in
ErrInvalidKeyType regardless of expiry, and independently the issued claims
never carry the sub field the verifier reads. -/
theorem c1_access_token_round_trip (m : JWTManagerCfg) (userID : String) (tIssue tVerify : Int) :
    VerifyAccessToken m tVerify (NewAcccessToken m userID tIssue) = .error .keyInvalidType ∧
    (NewAcccessToken m userID tIssue).claims.sub = none :=
  ⟨rfl, rfl⟩

/-- C2: expiry enforcement at refresh.  The claim fails on the code, which
compares expiresAt with createdAt instead of with the current time: the
session of dbExpired (createdAt 0, expiresAt 100) is refreshed successfully
at instant 200 and kept, while the session of dbWeird (createdAt 300,
expiresAt 250, not yet expired at instant 200) is rejected as expired and
deleted. -/
theorem c2_expiry_check_compares_wrong_fields :
    ((AuthUsecase.RefreshSessionToken mgrFix dbExpired (uuidString rtA) 200 rtB).1
        = .ok ("tok", uuidString rtB) ∧
     (AuthUsecase.RefreshSessionToken mgrFix dbExpired (uuidString rtA) 200 rtB).2.sessions.length
        = 1) ∧
    ((AuthUsecase.RefreshSessionToken mgrFix dbWeird (uuidString rtA) 200 rtB).1
        = .error (.msg "session has expired") ∧
     (AuthUsecase.RefreshSessionToken mgrFix dbWeird (uuidString rtA) 200 rtB).2.sessions = []) :=
  ⟨⟨rfl, rfl⟩, ⟨rfl, rfl⟩⟩

/-- C3: blocked-user gating.  The claim fails on the code:
AuthRepo.UserIsBlocked returns the negation of the stored flag, so VerifyUser
rejects the unblocked alice as blocked and accepts the blocked bob. -/
theorem c3_blocked_gate_is_inverted :
    aliceRow.isBlocked = false ∧ bobRow.isBlocked = true ∧
    AuthUsecase.VerifyUser mgrFix dbUsers "tokA" = .error (.msg "user is blocked") ∧
    AuthUsecase.VerifyUser mgrFix dbUsers "tokB" = .ok uidB :=
  ⟨rfl, rfl, rfl, rfl⟩

/-- C4: login-failure indistinguishability.  The claim fails on the code: a
nonexistent login surfaces the repository's raw no-rows error while a wrong
password yields the invalid-credentials error, two different values. -/
theorem c4_login_failures_differ :
    (AuthUsecase.LoginUser mgrFix verifyFix dbUsers "carol" "secret" "ua" "ip" 0 idA rtB).1
      = .error .noRows ∧
    (AuthUsecase.LoginUser mgrFix verifyFix dbUsers "alice" "wrong" "ua" "ip" 0 idA rtB).1
      = .error (.msg "invalid credentials") ∧
    Err.noRows ≠ Err.msg "invalid credentials" :=
  ⟨rfl, rfl, by decide⟩

/-- C5: password policy.  A password violating any of the five strength
rules (length at least eight, one uppercase, one lowercase, one digit, one
symbol character) makes RegisterUser fail with one of the validation
messages and leaves the database unchanged, so no user record is created;
and a password satisfying all five rules passes the password check. -/
theorem c5_password_policy :
    (∀ (hash : String → String) (db : DB) (username email password : String) (newID : UUID),
      ¬ (8 ≤ password.toList.length ∧ password.toList.any goIsUpper = true ∧
         password.toList.any goIsLower = true ∧ password.toList.any goIsNumber = true ∧
         password.toList.any goIsSpecial = true) →
      (AuthUsecase.RegisterUser hash db username email password newID).2 = db ∧
      ∃ m, (AuthUsecase.RegisterUser hash db username email password newID).1
             = .error (.msg m)) ∧
    (∀ password : String,
      8 ≤ password.toList.length → password.toList.any goIsUpper = true →
      password.toList.any goIsLower = true → password.toList.any goIsNumber = true →
      password.toList.any goIsSpecial = true →
      validatePassword password = .ok ()) := by
  constructor
  · intro hash db username email password newID hviol
    rcases validatePassword_error_shape password with hok | he | he | he | he | he
    · exact absurd ((validatePassword_ok_iff password).mp hok) hviol
    all_goals
      unfold AuthUsecase.RegisterUser
    all_goals
      by_cases h1 : validateUsername username = true
    case pos | pos | pos | pos | pos =>
      by_cases h2 : validateEmail email = true
      · simp [h1, h2, he]
      · simp [h1, h2]
    case neg | neg | neg | neg | neg =>
      simp [h1]
  · intro password hl hu hlo hn hsp
    exact (validatePassword_ok_iff password).mpr ⟨hl, hu, hlo, hn, hsp⟩

/-- Witness for C5: the all-lowercase password abcdefgh is rejected without a
state change, and the password Passw0rd! passes the check. -/
theorem c5_password_policy_witness :
    ((AuthUsecase.RegisterUser (fun s => s) dbEmpty "alice" "a@b.com" "abcdefgh" uidA).2 = dbEmpty ∧
     ∃ m, (AuthUsecase.RegisterUser (fun s => s) dbEmpty "alice" "a@b.com" "abcdefgh" uidA).1
            = .error (.msg m)) ∧
    validatePassword "Passw0rd!" = .ok () :=
  ⟨c5_password_policy.1 (fun s => s) dbEmpty "alice" "a@b.com" "abcdefgh" uidA (by decide),
   c5_password_policy.2 "Passw0rd!" (by decide) (by decide) (by decide) (by decide) (by decide)⟩

/-- C10: a string that does not parse as a UUID makes RefreshSessionToken
fail with the invalid-session-ID error and leave the state untouched, for
every database state, so no repository access can have influenced the
outcome. -/
theorem c10_refresh_rejects_non_uuid (mgr : JWTMgrIface) (db : DB) (s : String)
    (now : GoTime) (newRT : UUID) (h : uuidParse s.toList = none) :
    AuthUsecase.RefreshSessionToken mgr db s now newRT
      = (.error (.msg "invalid session ID"), db) := by
  unfold AuthUsecase.RefreshSessionToken
  rw [h]

/-- Witness for C10 at the concrete input not-a-uuid. -/
theorem c10_refresh_rejects_non_uuid_witness :
    AuthUsecase.RefreshSessionToken mgrFix dbExpired "not-a-uuid" 0 rtB
      = (.error (.msg "invalid session ID"), dbExpired) :=
  c10_refresh_rejects_non_uuid mgrFix dbExpired "not-a-uuid" 0 rtB (by decide)

/-- A list with two distinct members has length at least two. -/
theorem two_le_length_of_mem_ne {α : Type} [DecidableEq α] {l : List α} {a b : α}
    (ha : a ∈ l) (hb : b ∈ l) (hab : a ≠ b) : 2 ≤ l.length := by
  have hb' : b ∈ l.erase a := (List.mem_erase_of_ne hab.symm).mpr hb
  have h1 : 0 < (l.erase a).length := List.length_pos_of_mem hb'
  have h2 : (l.erase a).length = l.length - 1 := List.length_erase_of_mem ha
  omega

/-- C9: logout idempotence.  For well-formed identifiers LogoutSession
succeeds on every database state, whether or not a matching session exists
(deleting zero rows is not an error), so a second identical call succeeds as
well, and afterwards no matching session remains. -/
theorem c9_logout_session_idempotent (db : DB) (userID sessionID : String) (uid sid : UUID)
    (hu : uuidParse userID.toList = some uid) (hs : uuidParse sessionID.toList = some sid) :
    (AuthUsecase.LogoutSession db userID sessionID).1 = .ok () ∧
    (AuthUsecase.LogoutSession (AuthUsecase.LogoutSession db userID sessionID).2
       userID sessionID).1 = .ok () ∧
    ∀ r ∈ (AuthUsecase.LogoutSession db userID sessionID).2.sessions,
      ¬(r.id = sid ∧ r.userId = uid) := by
  have h1 : ∀ d : DB, AuthUsecase.LogoutSession d userID sessionID
      = (.ok (), AuthRepo.DeleteSession d uid sid) := by
    intro d
    unfold AuthUsecase.LogoutSession
    rw [hu, hs]
  refine ⟨by rw [h1], by rw [h1, h1], ?_⟩
  rw [h1]
  intro r hr hmatch
  have hmem := List.mem_filter.mp hr
  rw [hmatch.1, hmatch.2] at hmem
  simp at hmem

/-- Witness for C9 on the empty database: both calls succeed though nothing
is ever deleted. -/
theorem c9_logout_session_idempotent_witness :
    (AuthUsecase.LogoutSession dbEmpty (uuidString uidA) (uuidString idA)).1 = .ok () ∧
    (AuthUsecase.LogoutSession
       (AuthUsecase.LogoutSession dbEmpty (uuidString uidA) (uuidString idA)).2
       (uuidString uidA) (uuidString idA)).1 = .ok () ∧
    ∀ r ∈ (AuthUsecase.LogoutSession dbEmpty (uuidString uidA) (uuidString idA)).2.sessions,
      ¬(r.id = idA ∧ r.userId = uidA) :=
  c9_logout_session_idempotent dbEmpty (uuidString uidA) (uuidString idA) uidA idA
    (by decide) (by decide)

/-- C8: revocation is permanent.  LogoutAllSessions removes every session of
the user, and refreshing with any token that (by token uniqueness) only the
user's own sessions carried afterwards fails with the no-rows error and
changes nothing. -/
theorem c8_logout_all_is_permanent (db : DB) (userID : String) (uid : UUID)
    (hu : uuidParse userID.toList = some uid) :
    (AuthUsecase.LogoutAllSessions db userID).1 = .ok () ∧
    (∀ r ∈ (AuthUsecase.LogoutAllSessions db userID).2.sessions, r.userId ≠ uid) ∧
    (∀ (mgr : JWTMgrIface) (s : String) (rt newRT : UUID) (now : GoTime),
      uuidParse s.toList = some rt →
      (∀ r ∈ db.sessions, r.refreshToken = rt → r.userId = uid) →
      AuthUsecase.RefreshSessionToken mgr (AuthUsecase.LogoutAllSessions db userID).2 s now newRT
        = (.error .noRows, (AuthUsecase.LogoutAllSessions db userID).2)) := by
  have hmain : AuthUsecase.LogoutAllSessions db userID
      = (.ok (), AuthRepo.DeleteAllSessions db uid) := by
    unfold AuthUsecase.LogoutAllSessions
    rw [hu]
  have hgone : ∀ r ∈ (AuthRepo.DeleteAllSessions db uid).sessions, r ∈ db.sessions ∧ r.userId ≠ uid := by
    intro r hr
    have hmem := List.mem_filter.mp hr
    simpa using hmem
  rw [hmain]
  refine ⟨rfl, fun r hr => (hgone r hr).2, ?_⟩
  intro mgr s rt newRT now hs hown
  have hfind : (AuthRepo.DeleteAllSessions db uid).sessions.find?
      (fun r => r.refreshToken == rt) = none := by
    rw [List.find?_eq_none]
    intro r hr hbeq
    have hrt : r.refreshToken = rt := by simpa using hbeq
    exact (hgone r hr).2 (hown r (hgone r hr).1 hrt)
  unfold AuthUsecase.RefreshSessionToken AuthRepo.GetSessionByRefreshToken
  rw [hs]
  dsimp only
  rw [hfind]

/-- Witness for C8: logging the one-session user out of everything, then
refreshing with the token its session carried, fails and changes nothing. -/
theorem c8_logout_all_is_permanent_witness :
    (AuthUsecase.LogoutAllSessions dbExpired (uuidString uidA)).1 = .ok () ∧
    AuthUsecase.RefreshSessionToken mgrFix
        (AuthUsecase.LogoutAllSessions dbExpired (uuidString uidA)).2 (uuidString rtA) 0 rtB
      = (.error .noRows, (AuthUsecase.LogoutAllSessions dbExpired (uuidString uidA)).2) :=
  ⟨(c8_logout_all_is_permanent dbExpired (uuidString uidA) uidA (by decide)).1,
   (c8_logout_all_is_permanent dbExpired (uuidString uidA) uidA (by decide)).2.2
     mgrFix (uuidString rtA) rtA rtB 0 (by decide) (by decide)⟩

/-- The session TTL 15 * 24 * time.Hour is positive. -/
theorem sessionTTL_pos : (0 : Int) < sessionTTL := by norm_num [sessionTTL]

/-- Rows after a RefreshSession update are either untouched original rows or
carry exactly the updated window and token of the written session. -/
theorem refreshSession_rows (db : DB) (s : SessionRow) :
    ∀ r ∈ (AuthRepo.RefreshSession db s).sessions,
      r ∈ db.sessions ∨
        (r.createdAt = s.createdAt ∧ r.expiresAt = s.expiresAt ∧ r.refreshToken = s.refreshToken) := by
  intro r hr
  unfold AuthRepo.RefreshSession at hr
  obtain ⟨a, ha, hfa⟩ := List.mem_map.mp hr
  by_cases hc : (a.id == s.id && a.userId == s.userId) = true
  · right
    rw [← hfa, if_pos hc]
    exact ⟨rfl, rfl, rfl⟩
  · left
    rw [← hfa, if_neg hc]
    exact ha

/-- C7: session validity window.  The window length is positive, every
session present after LoginUser is either a pre-existing row or the newly
written one with createdAt = now and expiresAt = now + 15 days (hence
createdAt strictly before expiresAt), and every session present after
RefreshSessionToken is either a pre-existing row or the rotated one with the
same freshly started window. -/
theorem c7_session_validity_window :
    (0 : Int) < sessionTTL ∧
    (∀ (mgr : JWTMgrIface) (verify : String → String → Bool) (db : DB)
       (login password ua ip : String) (now : GoTime) (sid rt : UUID),
      ∀ r ∈ (AuthUsecase.LoginUser mgr verify db login password ua ip now sid rt).2.sessions,
        r ∈ db.sessions ∨
          (r.createdAt = now ∧ r.expiresAt = now + sessionTTL ∧ r.createdAt < r.expiresAt)) ∧
    (∀ (mgr : JWTMgrIface) (db : DB) (s : String) (now : GoTime) (newRT : UUID),
      ∀ r ∈ (AuthUsecase.RefreshSessionToken mgr db s now newRT).2.sessions,
        r ∈ db.sessions ∨
          (r.createdAt = now ∧ r.expiresAt = now + sessionTTL ∧ r.createdAt < r.expiresAt)) := by
  have hpos := sessionTTL_pos
  refine ⟨hpos, ?_, ?_⟩
  · intro mgr verify db login password ua ip now sid rt r hr
    unfold AuthUsecase.LoginUser at hr
    cases hlu : AuthRepo.GetUserByLogin db login with
    | error e => rw [hlu] at hr; exact Or.inl hr
    | ok p =>
      obtain ⟨userID, passwordHash⟩ := p
      rw [hlu] at hr
      try dsimp only at hr
      split at hr
      · exact Or.inl hr
      · cases hma : mgr.newAccessToken userID with
        | error e => rw [hma] at hr; exact Or.inl hr
        | ok tok =>
          rw [hma] at hr
          dsimp only [AuthRepo.StoreSession] at hr
          rcases List.mem_append.mp hr with hold | hnew
          · exact Or.inl hold
          · rcases List.mem_singleton.mp hnew with rfl
            refine Or.inr ⟨rfl, rfl, ?_⟩
            show now < now + sessionTTL
            exact lt_add_of_pos_right now hpos
  · intro mgr db s now newRT r hr
    unfold AuthUsecase.RefreshSessionToken at hr
    cases hp : uuidParse s.toList with
    | none => rw [hp] at hr; exact Or.inl hr
    | some sid =>
      rw [hp] at hr
      try dsimp only at hr
      cases hg : AuthRepo.GetSessionByRefreshToken db sid with
      | error e => rw [hg] at hr; exact Or.inl hr
      | ok session =>
        rw [hg] at hr
        try dsimp only at hr
        split at hr
        · dsimp only [AuthRepo.DeleteSession] at hr
          exact Or.inl (List.mem_filter.mp hr).1
        · have hrows := refreshSession_rows db
            { session with expiresAt := now + sessionTTL, createdAt := now, refreshToken := newRT }
          cases hma : mgr.newAccessToken session.userId with
          | error e =>
            rw [hma] at hr
            rcases hrows r hr with hold | hupd
            · exact Or.inl hold
            · have h1 : r.createdAt = now := hupd.1
              have h2 : r.expiresAt = now + sessionTTL := hupd.2.1
              exact Or.inr ⟨h1, h2, by rw [h1, h2]; exact lt_add_of_pos_right now hpos⟩
          | ok tok =>
            rw [hma] at hr
            rcases hrows r hr with hold | hupd
            · exact Or.inl hold
            · have h1 : r.createdAt = now := hupd.1
              have h2 : r.expiresAt = now + sessionTTL := hupd.2.1
              exact Or.inr ⟨h1, h2, by rw [h1, h2]; exact lt_add_of_pos_right now hpos⟩

/-- Witness for C7: the session stored by a successful login at instant 0 in
the two-user database carries exactly the fifteen-day window. -/
theorem c7_session_validity_window_witness :
    sessL ∈ dbUsers.sessions ∨
      (sessL.createdAt = 0 ∧ sessL.expiresAt = 0 + sessionTTL ∧ sessL.createdAt < sessL.expiresAt) :=
  c7_session_validity_window.2.1 mgrFix verifyFix dbUsers "alice" "secret" "ua" "ip" 0 idA rtB
    sessL (by decide)

/-- The row matching the written session's id and owner is present in
updated form after a RefreshSession update. -/
theorem refreshSession_hits (db : DB) (s : SessionRow) (r0 : SessionRow)
    (hmem : r0 ∈ db.sessions) (hid : r0.id = s.id) (huid : r0.userId = s.userId) :
    { r0 with createdAt := s.createdAt, expiresAt := s.expiresAt, refreshToken := s.refreshToken }
      ∈ (AuthRepo.RefreshSession db s).sessions := by
  unfold AuthRepo.RefreshSession
  simp only [List.mem_map]
  exact ⟨r0, hmem, by simp [hid, huid]⟩

/-- C6: rotation invalidates the old token.  When RefreshSessionToken on a
string naming the stored token rt1 succeeds under a replacement token newRT
that no stored session carries (the freshness uuid.NewUUID provides), and
rt1 is unique among stored tokens (the spec's invariant), then the returned
refresh-token string is newRT's, newRT differs from rt1, the number of
sessions is unchanged (the rotated session still exists, carrying newRT),
and a second refresh with the same string fails with the no-rows lookup
error and changes nothing. -/
theorem c6_rotation_invalidates_old_token
    (mgr mgr2 : JWTMgrIface) (db db2 : DB) (s : String) (rt1 newRT newRT2 : UUID)
    (now now2 : GoTime) (atk rt2 : String)
    (hp : uuidParse s.toList = some rt1)
    (hone : (db.sessions.filter (fun r => r.refreshToken == rt1)).length ≤ 1)
    (hfresh : ∀ r ∈ db.sessions, r.refreshToken ≠ newRT)
    (hok : AuthUsecase.RefreshSessionToken mgr db s now newRT = (.ok (atk, rt2), db2)) :
    rt2 = uuidString newRT ∧ newRT ≠ rt1 ∧
    db2.sessions.length = db.sessions.length ∧
    (∃ r ∈ db2.sessions, r.refreshToken = newRT) ∧
    AuthUsecase.RefreshSessionToken mgr2 db2 s now2 newRT2 = (.error .noRows, db2) := by
  unfold AuthUsecase.RefreshSessionToken AuthRepo.GetSessionByRefreshToken at hok
  rw [hp] at hok
  try dsimp only at hok
  cases hf : db.sessions.find? (fun r => r.refreshToken == rt1) with
  | none => rw [hf] at hok; exact absurd hok (by simp)
  | some r0 =>
    rw [hf] at hok
    have hmem : r0 ∈ db.sessions := List.mem_of_find?_eq_some hf
    have hr0tok : r0.refreshToken = rt1 := by
      have := List.find?_some hf
      simpa using this
    have hne : newRT ≠ rt1 := by
      intro h
      exact hfresh r0 hmem (hr0tok.trans h.symm)
    try dsimp only at hok
    split at hok
    · exact absurd hok (by simp)
    · split at hok
      · exact absurd hok (by simp)
      · simp only [Prod.mk.injEq, Except.ok.injEq] at hok
        obtain ⟨⟨hatk, hrt2⟩, hdb2⟩ := hok
        have hdb2' : db2 = AuthRepo.RefreshSession db
            { r0 with createdAt := now, expiresAt := now + sessionTTL, refreshToken := newRT } :=
          hdb2.symm
        have hnone : db2.sessions.find? (fun r => r.refreshToken == rt1) = none := by
          rw [hdb2']
          unfold AuthRepo.RefreshSession
          rw [List.find?_eq_none]
          intro x hx hbeq
          have hxtok : x.refreshToken = rt1 := by simpa using hbeq
          obtain ⟨a, ha, hfa⟩ := List.mem_map.mp hx
          by_cases hc : (a.id == r0.id && a.userId == r0.userId) = true
          · rw [if_pos (by simpa using hc)] at hfa
            have hxnew : x.refreshToken = newRT := by rw [← hfa]
            exact hne (hxnew.symm.trans hxtok)
          · rw [if_neg (by simpa using hc)] at hfa
            have hane : a ≠ r0 := by
              intro h
              rw [h] at hc
              simp at hc
            have hin1 : a ∈ db.sessions.filter (fun r => r.refreshToken == rt1) :=
              List.mem_filter.mpr ⟨ha, by rw [hfa]; simp [hxtok]⟩
            have hin2 : r0 ∈ db.sessions.filter (fun r => r.refreshToken == rt1) :=
              List.mem_filter.mpr ⟨hmem, by simp [hr0tok]⟩
            have htwo := two_le_length_of_mem_ne hin1 hin2 hane
            omega
        refine ⟨hrt2.symm, hne, ?_, ?_, ?_⟩
        · rw [hdb2']
          unfold AuthRepo.RefreshSession
          exact List.length_map _ _
        · refine ⟨{ r0 with createdAt := now, expiresAt := now + sessionTTL, refreshToken := newRT }, ?_, rfl⟩
          rw [hdb2']
          exact refreshSession_hits db _ r0 hmem rfl rfl
        · unfold AuthUsecase.RefreshSessionToken AuthRepo.GetSessionByRefreshToken
          rw [hp]
          dsimp only
          rw [hnone]

/-- Witness for C6 on the one-session database: the rotation at instant 200
succeeds, the session survives under the new token, and the old token is
dead for the refresh at instant 300. -/
theorem c6_rotation_invalidates_old_token_witness :
    uuidString rtB = uuidString rtB ∧ rtB ≠ rtA ∧
    (AuthUsecase.RefreshSessionToken mgrFix dbExpired (uuidString rtA) 200 rtB).2.sessions.length
      = dbExpired.sessions.length ∧
    (∃ r ∈ (AuthUsecase.RefreshSessionToken mgrFix dbExpired (uuidString rtA) 200 rtB).2.sessions,
      r.refreshToken = rtB) ∧
    AuthUsecase.RefreshSessionToken mgrFix
        (AuthUsecase.RefreshSessionToken mgrFix dbExpired (uuidString rtA) 200 rtB).2
        (uuidString rtA) 300 rtB2
      = (.error .noRows,
         (AuthUsecase.RefreshSessionToken mgrFix dbExpired (uuidString rtA) 200 rtB).2) :=
  c6_rotation_invalidates_old_token mgrFix mgrFix dbExpired
    (AuthUsecase.RefreshSessionToken mgrFix dbExpired (uuidString rtA) 200 rtB).2
    (uuidString rtA) rtA rtB rtB2 200 300 "tok" (uuidString rtB)
    (by decide) (by decide) (by decide) rfl

end Threads
